import Mathlib

/-!
Verification of the image crop / compress / resize pipeline in
`src/app/page.tsx` (Next.js image resize & compression widget).

The pipeline has three stages wired by `processImage`:
  1. `cropImage`   — draws a displayed-space crop region of the source
     image onto a fresh canvas at the region's displayed size;
  2. `imageCompression` — an external codec (black box, modelled as an
     oracle function in the environment);
  3. `resizeImage` — letterboxes the compressed image into an exact
     target width×height canvas over a white background.

Images are modelled as rational-coordinate pixel maps (a width, a
height, and a total pixel function); canvas drawing primitives
(`fillRect`, `drawImage`) are modelled point-wise following the HTML
canvas sampling semantics.  Encoding/serialization (`canvas.toBlob`)
is identity on pixel content; whether it yields a blob at all is an
environment flag, as are 2D-context availability, `FileReader` and
image-decode success.  JPEG lossiness and float rounding are outside
the pixel model: all arithmetic is exact over ℚ, matching the
arithmetic expressions of the source.
-/

namespace ImagePipeline

/-- A pixel value.  `blank` is the content of a freshly allocated
canvas (transparent); `white` is the letterbox fill; `rgb` is
arbitrary image content. -/
inductive Color where
  | blank
  | white
  | rgb (r g b : ℕ)
  deriving DecidableEq, Repr

/-- A raster image: pixel dimensions and a pixel map.  The pixel map
is total on ℚ×ℚ; only the values inside `[0,width) × [0,height)` are
meaningful. -/
structure Image where
  width : ℚ
  height : ℚ
  pixel : ℚ → ℚ → Color

/-- Two images are equal as images: same dimensions and the same
pixel value at every in-bounds coordinate. -/
def Image.eqvOn (a b : Image) : Prop :=
  a.width = b.width ∧ a.height = b.height ∧
    ∀ x y, 0 ≤ x → x < a.width → 0 ≤ y → y < a.height → a.pixel x y = b.pixel x y

/-- `document.createElement('canvas')` then setting `canvas.width`,
`canvas.height`: a fresh surface of the given dimensions, blank. -/
def newCanvas (w h : ℚ) : Image :=
  { width := w, height := h, pixel := fun _ _ => Color.blank }

/-- `ctx.fillRect(x, y, w, h)` with fill style `col`. -/
def fillRect (c : Image) (x y w h : ℚ) (col : Color) : Image :=
  { width := c.width, height := c.height,
    pixel := fun px py =>
      if x ≤ px ∧ px < x + w ∧ y ≤ py ∧ py < y + h then col else c.pixel px py }

/-- Five-argument `ctx.drawImage(img, dx, dy, dw, dh)`: the whole of
`img` scaled into the destination rectangle; pixels outside the
destination rectangle keep the previous canvas content. -/
def drawImageScaled (c img : Image) (dx dy dw dh : ℚ) : Image :=
  { width := c.width, height := c.height,
    pixel := fun px py =>
      if dx ≤ px ∧ px < dx + dw ∧ dy ≤ py ∧ py < dy + dh then
        img.pixel ((px - dx) * img.width / dw) ((py - dy) * img.height / dh)
      else c.pixel px py }

/-- Nine-argument `ctx.drawImage(img, sx, sy, sw, sh, dx, dy, dw, dh)`:
the source rectangle of `img` scaled into the destination rectangle. -/
def drawImageRegion (c img : Image) (sx sy sw sh dx dy dw dh : ℚ) : Image :=
  { width := c.width, height := c.height,
    pixel := fun px py =>
      if dx ≤ px ∧ px < dx + dw ∧ dy ≤ py ∧ py < dy + dh then
        img.pixel (sx + (px - dx) * sw / dw) (sy + (py - dy) * sh / dh)
      else c.pixel px py }

/-- An `HTMLImageElement`: natural (bitmap) dimensions, displayed
dimensions (`image.width`/`image.height` as laid out in the UI), and
the natural-resolution bitmap pixels. -/
structure SourceImage where
  naturalWidth : ℚ
  naturalHeight : ℚ
  width : ℚ
  height : ℚ
  pixel : ℚ → ℚ → Color

/-- The natural-resolution bitmap of a source image, as sampled by
`drawImage`. -/
def SourceImage.bitmap (s : SourceImage) : Image :=
  { width := s.naturalWidth, height := s.naturalHeight, pixel := s.pixel }

/-- The unit tag of a `react-image-crop` `Crop` value. -/
inductive CropUnit where
  | pct
  | px
  deriving DecidableEq, Repr

/-- A `react-image-crop` `Crop`: a rectangle in displayed coordinate
space plus a unit tag (the pipeline code reads only the rectangle). -/
structure Crop where
  unit : CropUnit
  x : ℚ
  y : ℚ
  width : ℚ
  height : ℚ
  deriving DecidableEq, Repr

/-- A JS `File` value as the pipeline uses it: name, MIME type and
decoded pixel content. -/
structure JsFile where
  name : String
  type : String
  content : Image

/-- The errors the pipeline can signal: `canvasEmpty` is the
`new Error('Canvas is empty')` rejection of `cropImage`'s `toBlob`
callback; `compressionFailed` a rejection of the external
`imageCompression` call; `imgLoadFailed` / `readerFailed` the
`img.onerror` / `reader.onerror` rejections of `resizeImage`. -/
inductive PErr where
  | canvasEmpty
  | compressionFailed
  | imgLoadFailed
  | readerFailed
  deriving DecidableEq, Repr

/-- `cropImage(image, crop, fileName)` from `page.tsx`.

`ctxOk` models whether `canvas.getContext('2d')` returned a context
(the code guards the draw with `if (ctx)` and proceeds either way);
`serializeOk` models whether `canvas.toBlob` delivered a blob: on a
null blob the promise rejects with `Error('Canvas is empty')`,
otherwise it resolves with `new File([blob], fileName,
{type: 'image/jpeg'})`. -/
def cropImage (image : SourceImage) (crop : Crop) (fileName : String)
    (ctxOk serializeOk : Bool) : Except PErr JsFile :=
  let scaleX := image.naturalWidth / image.width
  let scaleY := image.naturalHeight / image.height
  let canvas := newCanvas crop.width crop.height
  let canvas :=
    if ctxOk then
      drawImageRegion canvas image.bitmap
        (crop.x * scaleX) (crop.y * scaleY)
        (crop.width * scaleX) (crop.height * scaleY)
        0 0 crop.width crop.height
    else canvas
  if serializeOk then
    Except.ok { name := fileName, type := "image/jpeg", content := canvas }
  else
    Except.error PErr.canvasEmpty

/-- The draw placement computed inside `resizeImage`: `drawWidth`,
`drawHeight`, `offsetX`, `offsetY`. -/
structure DrawParams where
  drawWidth : ℚ
  drawHeight : ℚ
  offsetX : ℚ
  offsetY : ℚ
  deriving DecidableEq, Repr

/-- The letterbox arithmetic of `resizeImage` (lines 104–118 of
`page.tsx`): aspect ratios, the branch on
`imageAspectRatio > targetAspectRatio`, and the resulting draw
rectangle. -/
def resizeParams (imgWidth imgHeight width height : ℚ) : DrawParams :=
  let imageAspectRatio := imgWidth / imgHeight
  let targetAspectRatio := width / height
  if imageAspectRatio > targetAspectRatio then
    { drawWidth := width, drawHeight := width / imageAspectRatio,
      offsetX := 0, offsetY := (height - width / imageAspectRatio) / 2 }
  else
    { drawWidth := height * imageAspectRatio, drawHeight := height,
      offsetX := (width - height * imageAspectRatio) / 2, offsetY := 0 }

/-- The canvas content `resizeImage` serializes: a `width`×`height`
canvas filled white, with the decoded image drawn at the computed
offset and draw dimensions. -/
def resizeCanvas (img : Image) (width height : ℚ) : Image :=
  let p := resizeParams img.width img.height width height
  drawImageScaled (fillRect (newCanvas width height) 0 0 width height Color.white)
    img p.offsetX p.offsetY p.drawWidth p.drawHeight

/-- The outcome of the `resizeImage` promise.  Note the source's
`toBlob` callback is `(blob) => { resolve(blob!) }`: it resolves
unconditionally, even when the blob is null, so `resolved` carries an
`Option`. -/
inductive ResizeOutcome where
  | resolved (blob : Option Image)
  | rejected (e : PErr)

/-- `resizeImage(file, width, height)` from `page.tsx`.

`readerOk` models the `FileReader` load (`reader.onerror` rejects);
`imgLoadOk` models the image decode (`img.onerror` rejects);
`serializeOk` models whether `canvas.toBlob` delivered a blob — the
callback resolves with it either way (`resolve(blob!)`). -/
def resizeImage (file : JsFile) (width height : ℚ)
    (readerOk imgLoadOk serializeOk : Bool) : ResizeOutcome :=
  if readerOk then
    if imgLoadOk then
      ResizeOutcome.resolved
        (if serializeOk then some (resizeCanvas file.content width height) else none)
    else
      ResizeOutcome.rejected PErr.imgLoadFailed
  else
    ResizeOutcome.rejected PErr.readerFailed

/-- The `imageCompression` options object built in `processImage`:
`{maxSizeMB: 5, maxWidthOrHeight: Math.max(targetWidth, targetHeight),
useWebWorker: true}`. -/
structure CompressOptions where
  maxSizeMB : ℚ
  maxWidthOrHeight : ℚ
  useWebWorker : Bool
  deriving DecidableEq, Repr

/-- The React state touched by the pipeline, plus the form's
`cover_image` field (`coverImage`); previews are modelled by the pixel
content their data URL renders, sizes by the reported byte counts. -/
structure PipelineState where
  originalPreview : Option Image
  originalSize : Option ℕ
  compressedPreview : Option Image
  compressedSize : Option ℕ
  coverImage : Option JsFile
  completedCrop : Option Crop
  imgRef : Option SourceImage
  targetWidth : ℚ
  targetHeight : ℚ

/-- The environment a `processImage` run executes against: the canvas
and reader oracles of the two canvas stages, the external compressor
(a black-box function of the cropped file and the options), the byte
size the final serialization reports, and whether the preview
`FileReader` load fires. -/
structure Env where
  cropCtxOk : Bool
  cropSerializeOk : Bool
  compress : JsFile → CompressOptions → Except PErr JsFile
  resizeReaderOk : Bool
  resizeImgLoadOk : Bool
  resizeSerializeOk : Bool
  resizedFileSize : ℕ
  previewReaderOk : Bool

/-- Trace of the stages a `processImage` run actually executed, with
the arguments the external calls received. -/
inductive StageEvent where
  | cropRan
  | compressRan (options : CompressOptions)
  | resizeRan (width height : ℚ)
  deriving DecidableEq, Repr

/-- How a `processImage` run ends: the silent early `return` when no
completed crop (or no image ref) exists, the `catch` branch, or the
success path with its final artifact. -/
inductive ProcessOutcome where
  | missingCrop
  | failed (e : PErr)
  | succeeded (artifact : JsFile)

/-- Result of one `processImage` run: the state afterwards, the
outcome, and the stage trace. -/
structure RunResult where
  state : PipelineState
  outcome : ProcessOutcome
  events : List StageEvent

/-- The `catch` branch of `processImage`:
`setCompressedPreview(null); setCompressedSize(null);
form.resetField('cover_image')`. -/
def failState (s : PipelineState) : PipelineState :=
  { s with compressedPreview := none, compressedSize := none, coverImage := none }

/-- The content of `new File([resizedBlob], ...)` when the resolved
blob was null (`resolve(blob!)` hid this case from the type checker):
in JS the null is stringified, yielding a file that is not an image;
the model records it as a degenerate empty image. -/
def nullBlobContent : Image := newCanvas 0 0

/-- `processImage(file)` from `page.tsx` (lines 139–174): the guard
`if (!completedCrop || !imgRef.current) return;`, then
crop → compress → resize inside `try`, the success-path state updates
(`reader.onload` sets the compressed preview and size;
`form.setValue('cover_image', resizedFile)` runs unconditionally), and
the `catch` branch on any stage rejection. -/
def processImage (s : PipelineState) (file : JsFile) (env : Env) : RunResult :=
  match s.completedCrop, s.imgRef with
  | none, _ => { state := s, outcome := ProcessOutcome.missingCrop, events := [] }
  | some _, none => { state := s, outcome := ProcessOutcome.missingCrop, events := [] }
  | some completedCrop, some img =>
    match cropImage img completedCrop file.name env.cropCtxOk env.cropSerializeOk with
    | Except.error e =>
        { state := failState s, outcome := ProcessOutcome.failed e,
          events := [StageEvent.cropRan] }
    | Except.ok croppedFile =>
      let options : CompressOptions :=
        { maxSizeMB := 5, maxWidthOrHeight := max s.targetWidth s.targetHeight,
          useWebWorker := true }
      match env.compress croppedFile options with
      | Except.error e =>
          { state := failState s, outcome := ProcessOutcome.failed e,
            events := [StageEvent.cropRan, StageEvent.compressRan options] }
      | Except.ok compressedFile =>
        match resizeImage compressedFile s.targetWidth s.targetHeight
            env.resizeReaderOk env.resizeImgLoadOk env.resizeSerializeOk with
        | ResizeOutcome.rejected e =>
            { state := failState s, outcome := ProcessOutcome.failed e,
              events := [StageEvent.cropRan, StageEvent.compressRan options,
                StageEvent.resizeRan s.targetWidth s.targetHeight] }
        | ResizeOutcome.resolved blob =>
          let resizedFile : JsFile :=
            { name := file.name, type := "image/jpeg",
              content := blob.getD nullBlobContent }
          let s1 :=
            if env.previewReaderOk then
              { s with compressedPreview := some resizedFile.content,
                       compressedSize := some env.resizedFileSize }
            else s
          { state := { s1 with coverImage := some resizedFile },
            outcome := ProcessOutcome.succeeded resizedFile,
            events := [StageEvent.cropRan, StageEvent.compressRan options,
              StageEvent.resizeRan s.targetWidth s.targetHeight] }

/-! ### Concrete fixtures used by witnesses and counterexamples -/

/-- A concrete 800×600 image. -/
def exImage : Image :=
  { width := 800, height := 600, pixel := fun _ _ => Color.rgb 10 20 30 }

/-- A concrete source image: 1600×1200 natural bitmap displayed at
800×600. -/
def exSource : SourceImage :=
  { naturalWidth := 1600, naturalHeight := 1200, width := 800, height := 600,
    pixel := fun _ _ => Color.rgb 10 20 30 }

/-- A concrete crop region, fully inside the 800×600 displayed image. -/
def exCrop : Crop :=
  { unit := CropUnit.px, x := 100, y := 50, width := 600, height := 400 }

/-- A concrete selected file. -/
def exFile : JsFile :=
  { name := "photo.png", type := "image/png", content := exImage }

/-- An environment in which every oracle succeeds and the external
compressor returns its input unchanged. -/
def okEnv : Env :=
  { cropCtxOk := true, cropSerializeOk := true,
    compress := fun f _ => Except.ok f,
    resizeReaderOk := true, resizeImgLoadOk := true, resizeSerializeOk := true,
    resizedFileSize := 12345, previewReaderOk := true }

/-- A pipeline state after a file was selected and a crop completed,
with the default 600×400 target. -/
def exState : PipelineState :=
  { originalPreview := some exImage, originalSize := some 100000,
    compressedPreview := some exImage, compressedSize := some 54321,
    coverImage := some exFile, completedCrop := some exCrop,
    imgRef := some exSource, targetWidth := 600, targetHeight := 400 }

/-- `exState` with no completed crop region. -/
def noCropState : PipelineState := { exState with completedCrop := none }

/-- `exState` with target width 0. -/
def zeroWidthState : PipelineState := { exState with targetWidth := 0 }

/-- `exState` with target height 0 (zero divisor in the aspect
computation). -/
def zeroHeightState : PipelineState := { exState with targetHeight := 0 }

/-- `okEnv` with a failing external compressor. -/
def failCompressEnv : Env :=
  { okEnv with compress := fun _ _ => Except.error PErr.compressionFailed }

/-- The file the crop stage produces on the concrete fixtures,
extracted from the call itself. -/
def cropFixtureFile : JsFile :=
  match cropImage exSource exCrop "photo.png" true true with
  | Except.ok f => f
  | Except.error _ => exFile

/-- The artifact of the all-success run from `exState`, extracted from
the run itself. -/
def exArtifact : JsFile :=
  match (processImage exState exFile okEnv).outcome with
  | ProcessOutcome.succeeded f => f
  | _ => exFile

/-! ### C1 — resize output dimensions -/

/-- Claim C1: for every input image and positive integer target width
and height, the resize/letterbox stage's output image has pixel
dimensions exactly `(width, height)`, regardless of the input image's
aspect ratio. -/
theorem resize_output_dims (f : JsFile) (w h : ℕ) (hw : 0 < w) (hh : 0 < h)
    (ro io so : Bool) (blob : Image)
    (hres : resizeImage f (w : ℚ) (h : ℚ) ro io so = ResizeOutcome.resolved (some blob)) :
    blob.width = (w : ℚ) ∧ blob.height = (h : ℚ) := by
  unfold resizeImage at hres
  cases ro with
  | false => simp at hres
  | true =>
    cases io with
    | false => simp at hres
    | true =>
      cases so with
      | false => simp at hres
      | true =>
        simp only [if_true, ite_true] at hres
        cases hres
        exact ⟨rfl, rfl⟩

/-- Witness for C1 at a concrete input. -/
theorem resize_output_dims_witness :
    (resizeCanvas exFile.content ((600 : ℕ) : ℚ) ((400 : ℕ) : ℚ)).width = ((600 : ℕ) : ℚ) ∧
    (resizeCanvas exFile.content ((600 : ℕ) : ℚ) ((400 : ℕ) : ℚ)).height = ((400 : ℕ) : ℚ) :=
  resize_output_dims exFile 600 400 (by norm_num) (by norm_num) true true true
    (resizeCanvas exFile.content ((600 : ℕ) : ℚ) ((400 : ℕ) : ℚ)) rfl

/-! ### C2 — letterbox placement arithmetic -/

/-- Claim C2: with `imageAspect = imgWidth/imgHeight` and target
aspect `w/h`, if `imageAspect > targetAspect` the draw width is the
full target width, the draw height is `w/imageAspect`, `offsetX = 0`
and `offsetY = (h - drawHeight)/2`; otherwise (equal aspect ratios
included) the draw height is the full target height, the draw width is
`h*imageAspect`, `offsetY = 0` and `offsetX = (w - drawWidth)/2`.  On
the non-zero-offset axis the remaining padding is symmetric. -/
theorem resize_letterbox_placement (imgWidth imgHeight w h : ℚ)
    (hiw : 0 < imgWidth) (hih : 0 < imgHeight) (hw : 0 < w) (hh : 0 < h) :
    (imgWidth / imgHeight > w / h →
      (resizeParams imgWidth imgHeight w h).drawWidth = w ∧
      (resizeParams imgWidth imgHeight w h).drawHeight = w / (imgWidth / imgHeight) ∧
      (resizeParams imgWidth imgHeight w h).offsetX = 0 ∧
      (resizeParams imgWidth imgHeight w h).offsetY =
        (h - (resizeParams imgWidth imgHeight w h).drawHeight) / 2 ∧
      h - ((resizeParams imgWidth imgHeight w h).offsetY +
          (resizeParams imgWidth imgHeight w h).drawHeight) =
        (resizeParams imgWidth imgHeight w h).offsetY) ∧
    (imgWidth / imgHeight ≤ w / h →
      (resizeParams imgWidth imgHeight w h).drawHeight = h ∧
      (resizeParams imgWidth imgHeight w h).drawWidth = h * (imgWidth / imgHeight) ∧
      (resizeParams imgWidth imgHeight w h).offsetY = 0 ∧
      (resizeParams imgWidth imgHeight w h).offsetX =
        (w - (resizeParams imgWidth imgHeight w h).drawWidth) / 2 ∧
      w - ((resizeParams imgWidth imgHeight w h).offsetX +
          (resizeParams imgWidth imgHeight w h).drawWidth) =
        (resizeParams imgWidth imgHeight w h).offsetX) := by
  constructor
  · intro hgt
    unfold resizeParams
    rw [if_pos hgt]
    refine ⟨rfl, rfl, rfl, rfl, ?_⟩
    ring
  · intro hle
    unfold resizeParams
    rw [if_neg (not_lt.mpr hle)]
    refine ⟨rfl, rfl, rfl, rfl, ?_⟩
    ring

/-- Witness for C2 at a concrete input (1600×1200 source into a
600×400 target: aspect 4/3 ≤ 3/2, the else branch). -/
theorem resize_letterbox_placement_witness :
    ((1600 : ℚ) / 1200 > 600 / 400 →
      (resizeParams 1600 1200 600 400).drawWidth = 600 ∧
      (resizeParams 1600 1200 600 400).drawHeight = 600 / ((1600 : ℚ) / 1200) ∧
      (resizeParams 1600 1200 600 400).offsetX = 0 ∧
      (resizeParams 1600 1200 600 400).offsetY =
        (400 - (resizeParams 1600 1200 600 400).drawHeight) / 2 ∧
      400 - ((resizeParams 1600 1200 600 400).offsetY +
          (resizeParams 1600 1200 600 400).drawHeight) =
        (resizeParams 1600 1200 600 400).offsetY) ∧
    ((1600 : ℚ) / 1200 ≤ 600 / 400 →
      (resizeParams 1600 1200 600 400).drawHeight = 400 ∧
      (resizeParams 1600 1200 600 400).drawWidth = 400 * ((1600 : ℚ) / 1200) ∧
      (resizeParams 1600 1200 600 400).offsetY = 0 ∧
      (resizeParams 1600 1200 600 400).offsetX =
        (600 - (resizeParams 1600 1200 600 400).drawWidth) / 2 ∧
      600 - ((resizeParams 1600 1200 600 400).offsetX +
          (resizeParams 1600 1200 600 400).drawWidth) =
        (resizeParams 1600 1200 600 400).offsetX) :=
  resize_letterbox_placement 1600 1200 600 400 (by norm_num) (by norm_num)
    (by norm_num) (by norm_num)

/-! ### C3 — crop stage output -/

/-- Claim C3: for every valid crop region fully inside the displayed
image, the crop stage allocates an output surface of exactly the
region's displayed width and height, and its pixels are copied from
the source region obtained by scaling the region by
`scaleX = naturalWidth/displayedWidth` and
`scaleY = naturalHeight/displayedHeight`. -/
theorem crop_output (image : SourceImage) (crop : Crop) (fileName : String)
    (hdw : 0 < image.width) (hdh : 0 < image.height)
    (hx : 0 ≤ crop.x) (hy : 0 ≤ crop.y) (hcw : 0 < crop.width) (hch : 0 < crop.height)
    (hxw : crop.x + crop.width ≤ image.width) (hyh : crop.y + crop.height ≤ image.height)
    (f : JsFile) (hok : cropImage image crop fileName true true = Except.ok f) :
    f.content.width = crop.width ∧ f.content.height = crop.height ∧
    ∀ px py, 0 ≤ px → px < crop.width → 0 ≤ py → py < crop.height →
      f.content.pixel px py =
        image.pixel ((crop.x + px) * (image.naturalWidth / image.width))
          ((crop.y + py) * (image.naturalHeight / image.height)) := by
  unfold cropImage at hok
  simp only [if_true, ite_true] at hok
  cases hok
  refine ⟨rfl, rfl, fun px py hpx hpxw hpy hpyh => ?_⟩
  dsimp [drawImageRegion, SourceImage.bitmap, newCanvas]
  rw [if_pos ⟨hpx, by simpa using hpxw, hpy, by simpa using hpyh⟩]
  have hcw0 : crop.width ≠ 0 := ne_of_gt hcw
  have hch0 : crop.height ≠ 0 := ne_of_gt hch
  have e1 : crop.x * (image.naturalWidth / image.width) +
      (px - 0) * (crop.width * (image.naturalWidth / image.width)) / crop.width =
      (crop.x + px) * (image.naturalWidth / image.width) := by
    field_simp
    ring
  have e2 : crop.y * (image.naturalHeight / image.height) +
      (py - 0) * (crop.height * (image.naturalHeight / image.height)) / crop.height =
      (crop.y + py) * (image.naturalHeight / image.height) := by
    field_simp
    ring
  rw [e1, e2]

/-- Witness for C3 at a concrete input: the 100,50,600×400 crop of
the 1600×1200 source displayed at 800×600. -/
theorem crop_output_witness :
    (cropFixtureFile.content.width = exCrop.width ∧
     cropFixtureFile.content.height = exCrop.height ∧
     ∀ px py, 0 ≤ px → px < exCrop.width → 0 ≤ py → py < exCrop.height →
       cropFixtureFile.content.pixel px py =
         exSource.pixel ((exCrop.x + px) * (exSource.naturalWidth / exSource.width))
           ((exCrop.y + py) * (exSource.naturalHeight / exSource.height))) :=
  crop_output exSource exCrop "photo.png" (by norm_num [exSource]) (by norm_num [exSource])
    (by norm_num [exCrop]) (by norm_num [exCrop]) (by norm_num [exCrop]) (by norm_num [exCrop])
    (by norm_num [exCrop, exSource]) (by norm_num [exCrop, exSource])
    cropFixtureFile rfl

/-! ### C4 — stage failure clears downstream output -/

/-- Claim C4: whenever a pipeline run fails at any stage, the
resulting state has the compressed preview, compressed size and output
artifact cleared, while the original preview and size are unchanged;
the state is exactly the input state with those three fields cleared,
so no partial update is observable. -/
theorem process_failure_clears (s : PipelineState) (file : JsFile) (env : Env) (e : PErr)
    (h : (processImage s file env).outcome = ProcessOutcome.failed e) :
    (processImage s file env).state.compressedPreview = none ∧
    (processImage s file env).state.compressedSize = none ∧
    (processImage s file env).state.coverImage = none ∧
    (processImage s file env).state.originalPreview = s.originalPreview ∧
    (processImage s file env).state.originalSize = s.originalSize := by
  cases hc : s.completedCrop with
  | none => simp [processImage, hc] at h
  | some c =>
    cases hi : s.imgRef with
    | none => simp [processImage, hc, hi] at h
    | some img =>
      cases hcrop : cropImage img c file.name env.cropCtxOk env.cropSerializeOk with
      | error e1 => simp [processImage, hc, hi, hcrop, failState]
      | ok cf =>
        cases hcomp : env.compress cf
            { maxSizeMB := 5, maxWidthOrHeight := max s.targetWidth s.targetHeight,
              useWebWorker := true } with
        | error e2 => simp [processImage, hc, hi, hcrop, hcomp, failState]
        | ok gf =>
          cases hres : resizeImage gf s.targetWidth s.targetHeight
              env.resizeReaderOk env.resizeImgLoadOk env.resizeSerializeOk with
          | rejected e3 => simp [processImage, hc, hi, hcrop, hcomp, hres, failState]
          | resolved blob =>
            by_cases hp : env.previewReaderOk <;>
              simp [processImage, hc, hi, hcrop, hcomp, hres, hp] at h

/-- Witness for C4: the concrete run whose external compressor fails. -/
theorem process_failure_clears_witness :
    (processImage exState exFile failCompressEnv).state.compressedPreview = none ∧
    (processImage exState exFile failCompressEnv).state.compressedSize = none ∧
    (processImage exState exFile failCompressEnv).state.coverImage = none ∧
    (processImage exState exFile failCompressEnv).state.originalPreview =
      exState.originalPreview ∧
    (processImage exState exFile failCompressEnv).state.originalSize =
      exState.originalSize :=
  process_failure_clears exState exFile failCompressEnv PErr.compressionFailed rfl

/-! ### C5 — missing crop region -/

/-- Claim C5: invoking `processImage` with no completed crop region
takes the missing-crop exit (the guard's early return, the spec's
`MissingCropError`) and leaves the entire pipeline state unchanged. -/
theorem process_missing_crop (s : PipelineState) (file : JsFile) (env : Env)
    (h : s.completedCrop = none) :
    (processImage s file env).outcome = ProcessOutcome.missingCrop ∧
    (processImage s file env).state = s := by
  simp [processImage, h]

/-- Witness for C5: the concrete state with no completed crop. -/
theorem process_missing_crop_witness :
    (processImage noCropState exFile okEnv).outcome = ProcessOutcome.missingCrop ∧
    (processImage noCropState exFile okEnv).state = noCropState :=
  process_missing_crop noCropState exFile okEnv rfl

/-! ### C6 — serialization failure behaviour

The claim says both canvas stages reject with `EncodingError` exactly
when serialization yields no blob.  That is true of `cropImage`, whose
`toBlob` callback rejects on a null blob, but false of `resizeImage`,
whose callback is `(blob) => { resolve(blob!) }`: it resolves
unconditionally, even with a null blob. -/

/-- Counterexample to C6: on the concrete fixtures, when the resize
stage's serialization yields no blob the promise still resolves (with
the null blob) rather than rejecting. -/
theorem resize_resolves_on_empty_blob :
    resizeImage exFile 600 400 true true false = ResizeOutcome.resolved none := rfl

/-- Amended C6: the crop stage rejects (with the `Canvas is empty`
error) exactly when serialization yields no blob, and otherwise
resolves with the encoded file; the resize stage, once reading and
decoding succeed, always resolves — with no blob exactly when
serialization yields none — and never rejects at serialization. -/
theorem serialization_failure_behaviour (image : SourceImage) (crop : Crop)
    (fileName : String) (ctxOk : Bool) (f : JsFile) (w h : ℚ) :
    (∀ so : Bool,
      (∃ e, cropImage image crop fileName ctxOk so = Except.error e) ↔ so = false) ∧
    (∀ so : Bool, ∃ b : Option Image,
      resizeImage f w h true true so = ResizeOutcome.resolved b ∧ (b = none ↔ so = false)) := by
  constructor
  · intro so
    cases so with
    | false => simp [cropImage]
    | true => simp [cropImage]
  · intro so
    cases so with
    | false => exact ⟨none, rfl, by simp⟩
    | true => exact ⟨some (resizeCanvas f.content w h), rfl, by simp⟩

/-! ### C7 — no validation of zero target dimensions

The claim says a run with target width or height 0 is rejected before
the resize stage.  `processImage` checks only
`if (!completedCrop || !imgRef.current) return;` — it never inspects
the target dimensions, and the run proceeds into `resizeImage`. -/

/-- Counterexample to C7: from the concrete state whose target height
is 0 (so the aspect computation `width / height` has a zero divisor),
the all-success run executes the resize stage with those dimensions
instead of rejecting beforehand. -/
theorem process_resize_runs_with_zero_height :
    StageEvent.resizeRan 600 0 ∈ (processImage zeroHeightState exFile okEnv).events := by
  decide

/-- Amended C7: `processImage` performs no validation of the target
dimensions.  Whenever a completed crop and image ref exist, crop
serialization succeeds and the external compressor succeeds, the run
invokes the resize stage with the current target dimensions whatever
they are — including 0, for which the aspect computation's divisor is
zero. -/
theorem process_no_dimension_check (s : PipelineState) (file : JsFile) (env : Env)
    (c : Crop) (img : SourceImage)
    (hc : s.completedCrop = some c) (hi : s.imgRef = some img)
    (hser : env.cropSerializeOk = true)
    (hcomp : ∀ f o, ∃ g, env.compress f o = Except.ok g) :
    StageEvent.resizeRan s.targetWidth s.targetHeight ∈
      (processImage s file env).events := by
  have hcrop : ∃ cf, cropImage img c file.name env.cropCtxOk env.cropSerializeOk =
      Except.ok cf := by
    rw [hser]
    exact ⟨_, rfl⟩
  obtain ⟨cf, hcf⟩ := hcrop
  obtain ⟨gf, hgf⟩ := hcomp cf
    { maxSizeMB := 5, maxWidthOrHeight := max s.targetWidth s.targetHeight,
      useWebWorker := true }
  cases hres : resizeImage gf s.targetWidth s.targetHeight
      env.resizeReaderOk env.resizeImgLoadOk env.resizeSerializeOk with
  | rejected e => simp [processImage, hc, hi, hcf, hgf, hres]
  | resolved blob => simp [processImage, hc, hi, hcf, hgf, hres]

/-- Witness for the amended C7: the concrete state whose target width
is 0 still reaches the resize stage. -/
theorem process_no_dimension_check_witness :
    StageEvent.resizeRan 0 400 ∈ (processImage zeroWidthState exFile okEnv).events := by
  have h := process_no_dimension_check zeroWidthState exFile okEnv exCrop exSource
    rfl rfl rfl (fun f _ => ⟨f, rfl⟩)
  simpa [zeroWidthState, exState] using h

/-! ### C8 — idempotence of the resize stage -/

/-- Re-resizing any image whose dimensions already equal the target
reproduces the image: the aspect ratios coincide, the else branch
draws at full size with zero offsets, and every in-bounds pixel is
sampled at itself. -/
theorem resizeCanvas_of_matching_dims (out : Image) (w h : ℚ) (hw : 0 < w) (hh : 0 < h)
    (how : out.width = w) (hoh : out.height = h) :
    Image.eqvOn (resizeCanvas out w h) out := by
  subst how
  subst hoh
  have hw0 : out.width ≠ 0 := ne_of_gt hw
  have hh0 : out.height ≠ 0 := ne_of_gt hh
  have hp : resizeParams out.width out.height out.width out.height =
      { drawWidth := out.width, drawHeight := out.height, offsetX := 0, offsetY := 0 } := by
    unfold resizeParams
    rw [if_neg (lt_irrefl _)]
    simp only [DrawParams.mk.injEq]
    refine ⟨?_, trivial, ?_, trivial⟩
    · field_simp
    · field_simp
  refine ⟨rfl, rfl, fun x y hx hxw hy hyh => ?_⟩
  unfold resizeCanvas
  rw [hp]
  dsimp [drawImageScaled, fillRect, newCanvas] at hxw hyh ⊢
  rw [if_pos ⟨hx, by simpa using hxw, hy, by simpa using hyh⟩]
  have e1 : (x - 0) * out.width / out.width = x := by field_simp
  have e2 : (y - 0) * out.height / out.height = y := by field_simp
  rw [e1, e2]

/-- Claim C8: the resize stage is idempotent on its own output.  For
any input image and positive target `(w, h)`, re-running the resize
canvas computation on the first run's output with the same targets
draws that output at full size with zero offsets and reproduces it
pixel for pixel. -/
theorem resize_idempotent (img : Image) (w h : ℚ) (hw : 0 < w) (hh : 0 < h) :
    resizeParams (resizeCanvas img w h).width (resizeCanvas img w h).height w h =
      { drawWidth := w, drawHeight := h, offsetX := 0, offsetY := 0 } ∧
    Image.eqvOn (resizeCanvas (resizeCanvas img w h) w h) (resizeCanvas img w h) := by
  have hw0 : w ≠ 0 := ne_of_gt hw
  have hh0 : h ≠ 0 := ne_of_gt hh
  constructor
  · show resizeParams w h w h = _
    unfold resizeParams
    rw [if_neg (lt_irrefl _)]
    simp only [DrawParams.mk.injEq]
    refine ⟨?_, trivial, ?_, trivial⟩
    · field_simp
    · field_simp
  · exact resizeCanvas_of_matching_dims (resizeCanvas img w h) w h hw hh rfl rfl

/-- Witness for C8 at a concrete input. -/
theorem resize_idempotent_witness :
    resizeParams (resizeCanvas exImage 600 400).width (resizeCanvas exImage 600 400).height
        600 400 =
      { drawWidth := 600, drawHeight := 400, offsetX := 0, offsetY := 0 } ∧
    Image.eqvOn (resizeCanvas (resizeCanvas exImage 600 400) 600 400)
      (resizeCanvas exImage 600 400) :=
  resize_idempotent exImage 600 400 (by norm_num) (by norm_num)

/-! ### C9 — crop stage without a 2D context -/

/-- Claim C9: if no 2D context is available, `cropImage` skips the
draw (the `if (ctx)` guard) but still serializes, resolving with a
file of the requested crop dimensions whose pixel content is entirely
blank — no source pixels are copied. -/
theorem crop_without_context (image : SourceImage) (crop : Crop) (fileName : String) :
    ∃ f, cropImage image crop fileName false true = Except.ok f ∧
      f.content.width = crop.width ∧ f.content.height = crop.height ∧
      ∀ x y, f.content.pixel x y = Color.blank :=
  ⟨{ name := fileName, type := "image/jpeg", content := newCanvas crop.width crop.height },
    rfl, rfl, rfl, fun _ _ => rfl⟩

/-! ### C10 — final artifact shape and compression configuration -/

/-- Claim C10: every successful run's artifact is a file of MIME type
`image/jpeg` named after the originally selected input file, and the
compression stage was invoked with `maxSizeMB = 5` and
`maxWidthOrHeight = max targetWidth targetHeight`
(and `useWebWorker = true`). -/
theorem process_success_artifact (s : PipelineState) (file : JsFile) (env : Env)
    (f : JsFile) (h : (processImage s file env).outcome = ProcessOutcome.succeeded f) :
    f.type = "image/jpeg" ∧ f.name = file.name ∧
    StageEvent.compressRan
        { maxSizeMB := 5, maxWidthOrHeight := max s.targetWidth s.targetHeight,
          useWebWorker := true } ∈ (processImage s file env).events := by
  cases hc : s.completedCrop with
  | none => simp [processImage, hc] at h
  | some c =>
    cases hi : s.imgRef with
    | none => simp [processImage, hc, hi] at h
    | some img =>
      cases hcrop : cropImage img c file.name env.cropCtxOk env.cropSerializeOk with
      | error e1 => simp [processImage, hc, hi, hcrop] at h
      | ok cf =>
        cases hcomp : env.compress cf
            { maxSizeMB := 5, maxWidthOrHeight := max s.targetWidth s.targetHeight,
              useWebWorker := true } with
        | error e2 => simp [processImage, hc, hi, hcrop, hcomp] at h
        | ok gf =>
          cases hres : resizeImage gf s.targetWidth s.targetHeight
              env.resizeReaderOk env.resizeImgLoadOk env.resizeSerializeOk with
          | rejected e3 => simp [processImage, hc, hi, hcrop, hcomp, hres] at h
          | resolved blob =>
            by_cases hp : env.previewReaderOk <;>
              [skip; skip] <;>
              · simp [processImage, hc, hi, hcrop, hcomp, hres, hp] at h ⊢
                cases h
                exact ⟨rfl, rfl⟩

/-- Witness for C10: the all-success concrete run. -/
theorem process_success_artifact_witness :
    exArtifact.type = "image/jpeg" ∧ exArtifact.name = exFile.name ∧
    StageEvent.compressRan
        { maxSizeMB := 5, maxWidthOrHeight := max exState.targetWidth exState.targetHeight,
          useWebWorker := true } ∈ (processImage exState exFile okEnv).events :=
  process_success_artifact exState exFile okEnv exArtifact rfl

end ImagePipeline
